import Mathlib

/-
Verification development for the huc8-lookup browser client.

The development shallowly embeds the lookup pipeline of the repository:
the Nominatim geocoder with its rate limiter (src/services/geocoder.ts),
the USGS WBD boundary and adjacency queries (src/services/huc-service.ts),
and the orchestrating application state machine (src/app.ts).

Modelling conventions:
* JavaScript numbers that only flow through the pipeline (coordinates,
  areas) are modelled as rationals; no claim depends on float rounding.
* Asynchronous network calls are modelled by passing the outcome of the
  fetch (resolved response or rejected promise) as an explicit argument.
* Mutable state (the rate limiter timestamp, the DOM/UI state) is passed
  and returned explicitly.
* Functions additionally return the list of service calls they issue, so
  that which-calls-happen properties are expressible.
-/

namespace HUC8Lookup

/-- Model of an arbitrary JavaScript thrown value: either an Error object
carrying a message, or any non-Error value. -/
inductive Thrown where
  | error (message : String)
  | nonError
deriving DecidableEq

/-- Model of the outcome of a fetch call: a resolved HTTP response with
its ok flag, numeric status and already-parsed JSON body, or a rejected
promise carrying the thrown value. -/
inductive FetchOutcome (α : Type) where
  | response (ok : Bool) (status : Nat) (body : α)
  | networkError (e : Thrown)

/-- Boolean test that the first character list is a prefix of the second. -/
def listStartsWith : List Char → List Char → Bool
  | [], _ => true
  | _ :: _, [] => false
  | a :: p, b :: l => a == b && listStartsWith p l

/-- Boolean test that the first character list occurs as a contiguous
sublist of the second. -/
def listHasSub (p : List Char) : List Char → Bool
  | [] => p.isEmpty
  | b :: l => listStartsWith p (b :: l) || listHasSub p l

/-- Model of JavaScript String.prototype.includes. -/
def jsIncludes (s sub : String) : Bool := listHasSub sub.data s.data

/-- Model of JavaScript String.prototype.trim: drop whitespace from both
ends of the string. -/
def jsTrim (s : String) : String :=
  ⟨((s.data.dropWhile Char.isWhitespace).reverse.dropWhile Char.isWhitespace).reverse⟩

/-- The expression pattern used by the catch blocks of the services:
error instanceof Error ? error.message : fallback. -/
def messageOr (fallback : String) : Thrown → String
  | .error m => m
  | .nonError => fallback

/-! ## Data model (src/types/index.ts) -/

/-- A GeoJSON coordinate position, in [longitude, latitude] order. -/
abbrev Position := Rat × Rat

/-- GeoJSON geometry of a HUC8 feature: Polygon (a list of linear rings)
or MultiPolygon (a list of ring lists). -/
inductive Geometry where
  | polygon (coordinates : List (List Position))
  | multiPolygon (coordinates : List (List (List Position)))
deriving DecidableEq

/-- HUC8Properties from src/types/index.ts. -/
structure HUC8Properties where
  huc8 : String
  name : String
  states : String
  areaacres : Option Rat
  areasqkm : Option Rat
deriving DecidableEq

/-- HUC8Feature from src/types/index.ts. -/
structure HUC8Feature where
  properties : HUC8Properties
  geometry : Geometry
deriving DecidableEq

/-- HUC8FeatureCollection: the features field may be absent in a provider
response, modelled with Option. -/
structure HUC8FeatureCollection where
  features : Option (List HUC8Feature)

/-- GeocodingResult from src/types/index.ts, polymorphic in the number
type produced by parseFloat. -/
structure GeocodingResult (α : Type) where
  lat : α
  lng : α
  displayName : String

/-- NominatimResult from src/types/index.ts: latitude and longitude are
strings in the provider response. -/
structure NominatimResult where
  lat : String
  lon : String
  display_name : String

/-! ## Rate limiter and geocoder (src/services/geocoder.ts) -/

/-- NOMINATIM_BASE_URL constant. -/
def NOMINATIM_BASE_URL : String := "https://nominatim.openstreetmap.org/search"

/-- The User-Agent header value sent on geocoding requests. -/
def NOMINATIM_USER_AGENT : String := "HUC8-Lookup-App/1.0"

/-- MIN_REQUEST_INTERVAL constant: 1.1 seconds, in milliseconds. -/
def MIN_REQUEST_INTERVAL : Int := 1100

/-- The initial value of the module-level lastRequestTime variable. -/
def initialLastRequestTime : Int := 0

/-- resetRateLimiter sets lastRequestTime back to 0. -/
def resetRateLimiter : Int := 0

/-- waitForRateLimit, as a function from the stored lastRequestTime and
the current clock reading (Date.now) to the pair (time at which the
caller resumes, new stored lastRequestTime).  The source sleeps for
MIN_REQUEST_INTERVAL - timeSinceLastRequest when lastRequestTime > 0 and
timeSinceLastRequest < MIN_REQUEST_INTERVAL, then stores Date.now(),
which at resumption equals now + delay. -/
def waitForRateLimit (lastRequestTime now : Int) : Int × Int :=
  let timeSinceLastRequest := now - lastRequestTime
  let delay :=
    if lastRequestTime > 0 ∧ timeSinceLastRequest < MIN_REQUEST_INTERVAL then
      MIN_REQUEST_INTERVAL - timeSinceLastRequest
    else 0
  (now + delay, now + delay)

/-- The query parameters of the Nominatim search request built by
geocodeAddress. -/
structure NominatimParams where
  q : String
  format : String
  limit : String
  countrycodes : String
  addressdetails : String
deriving DecidableEq

/-- The parameter record geocodeAddress passes to URLSearchParams. -/
def geocodeRequestParams (query : String) : NominatimParams :=
  { q := query, format := "json", limit := "1", countrycodes := "us", addressdetails := "1" }

/-- Observable events of one geocodeAddress run, in order: the write to
the shared lastRequestTime variable, then the HTTP GET to Nominatim. -/
inductive GeocodeEvent where
  | recordLastRequestTime (t : Int)
  | httpGet (params : NominatimParams)
deriving DecidableEq

/-- The outcome of one geocodeAddress run: the new stored lastRequestTime,
the ordered event trace, and the returned or thrown value. -/
structure GeocodeRun (α : Type) where
  lastRequestTime : Int
  events : List GeocodeEvent
  result : Except Thrown (GeocodingResult α)

/-- geocodeAddress from src/services/geocoder.ts.  It first awaits
waitForRateLimit (which stores the new timestamp), then issues the fetch;
a non-ok response throws with the numeric status, an empty result array
throws Address not found, and otherwise the first result is returned with
lat and lon run through parseFloat. -/
def geocodeAddress {α : Type} (parseFloat : String → α) (query : String)
    (lastRequestTime now : Int) (resp : FetchOutcome (List NominatimResult)) :
    GeocodeRun α :=
  let newLast := (waitForRateLimit lastRequestTime now).2
  let events := [GeocodeEvent.recordLastRequestTime newLast,
                 GeocodeEvent.httpGet (geocodeRequestParams query)]
  match resp with
  | .networkError e => ⟨newLast, events, .error e⟩
  | .response ok status data =>
    if ok then
      match data with
      | [] => ⟨newLast, events,
          .error (.error "Address not found. Please try a different search.")⟩
      | r :: _ => ⟨newLast, events,
          .ok { lat := parseFloat r.lat, lng := parseFloat r.lon,
                displayName := r.display_name }⟩
    else ⟨newLast, events, .error (.error ("Geocoding failed: " ++ Nat.repr status))⟩

/-! ## Boundary and adjacency services (src/services/huc-service.ts) -/

/-- WBD_BASE_URL constant. -/
def WBD_BASE_URL : String :=
  "https://hydro.nationalmap.gov/arcgis/rest/services/wbd/MapServer/4"

/-- The ESRI polygon geometry built by toEsriGeometry: a ring list plus
the spatialReference wkid. -/
structure EsriPolygonGeometry where
  rings : List (List Position)
  wkid : Nat
deriving DecidableEq

/-- toEsriGeometry from src/services/huc-service.ts: a Polygon keeps its
rings; a MultiPolygon flattens all rings of all polygons into one list. -/
def toEsriGeometry : Geometry → EsriPolygonGeometry
  | .polygon coordinates => { rings := coordinates, wkid := 4326 }
  | .multiPolygon coordinates => { rings := coordinates.flatten, wkid := 4326 }

/-- queryWBD from src/services/huc-service.ts: POST the params, throw on a
non-ok response with the numeric status, otherwise return the parsed
feature collection. -/
def queryWBD (resp : FetchOutcome HUC8FeatureCollection) :
    Except Thrown HUC8FeatureCollection :=
  match resp with
  | .networkError e => .error e
  | .response ok status body =>
    if ok then .ok body
    else .error (.error ("API request failed: " ++ Nat.repr status))

/-- The x/y point geometry serialised by findHUC8ByPoint. -/
structure EsriPointGeometry where
  x : Rat
  y : Rat
deriving DecidableEq

/-- The form parameters of the point-intersects WBD query. -/
structure WBDPointQuery where
  geometry : EsriPointGeometry
  geometryType : String
  inSR : String
  spatialRel : String
  outFields : String
  returnGeometry : String
  outSR : String
  f : String
deriving DecidableEq

/-- The params record built by findHUC8ByPoint. -/
def findHUC8ByPointParams (lat lng : Rat) : WBDPointQuery :=
  { geometry := { x := lng, y := lat }
    geometryType := "esriGeometryPoint"
    inSR := "4326"
    spatialRel := "esriSpatialRelIntersects"
    outFields := "huc8,name,states,areaacres,areasqkm"
    returnGeometry := "true"
    outSR := "4326"
    f := "geojson" }

/-- The message thrown by findHUC8ByPoint when the provider returns zero
features. -/
def noHUC8FoundMessage : String :=
  "No HUC8 found for this location. Please ensure the location is within the United States."

/-- The catch block of findHUC8ByPoint: an Error whose message includes
the substring No HUC8 is rethrown as is; anything else is wrapped in a
new Error prefixed with HUC8 lookup failed. -/
def findHUC8Catch (e : Thrown) : Thrown :=
  match e with
  | .error m =>
    if jsIncludes m "No HUC8" then Thrown.error m
    else Thrown.error ("HUC8 lookup failed: " ++ m)
  | .nonError => Thrown.error ("HUC8 lookup failed: " ++ "Unknown error")

/-- The value returned or thrown by findHUC8ByPoint for a given fetch
outcome: the try block queries WBD, throws noHUC8FoundMessage when the
features field is absent or empty, and returns the first feature;
every thrown value is routed through the catch block. -/
def findHUC8ByPointResult (resp : FetchOutcome HUC8FeatureCollection) :
    Except Thrown HUC8Feature :=
  let tryBlock : Except Thrown HUC8Feature :=
    match queryWBD resp with
    | .error e => .error e
    | .ok data =>
      match data.features with
      | none => .error (.error noHUC8FoundMessage)
      | some [] => .error (.error noHUC8FoundMessage)
      | some (f :: _) => .ok f
  match tryBlock with
  | .error e => .error (findHUC8Catch e)
  | .ok f => .ok f

/-- findHUC8ByPoint from src/services/huc-service.ts: the issued query
parameters together with the returned or thrown value. -/
def findHUC8ByPoint (lat lng : Rat) (resp : FetchOutcome HUC8FeatureCollection) :
    WBDPointQuery × Except Thrown HUC8Feature :=
  (findHUC8ByPointParams lat lng, findHUC8ByPointResult resp)

/-- The form parameters of the polygon WBD query issued by
findAdjacentHUC8s. -/
structure WBDPolygonQuery where
  geometry : EsriPolygonGeometry
  geometryType : String
  inSR : String
  spatialRel : String
  outFields : String
  returnGeometry : String
  outSR : String
  f : String
deriving DecidableEq

/-- The params record built by findAdjacentHUC8s. -/
def findAdjacentHUC8sParams (geometry : Geometry) : WBDPolygonQuery :=
  { geometry := toEsriGeometry geometry
    geometryType := "esriGeometryPolygon"
    inSR := "4326"
    spatialRel := "esriSpatialRelTouches"
    outFields := "huc8,name,states"
    returnGeometry := "true"
    outSR := "4326"
    f := "geojson" }

/-- The value returned or thrown by findAdjacentHUC8s for a given fetch
outcome: on success the features field (empty when absent) is returned
unchanged; any thrown value is wrapped with the Adjacent HUC8 lookup
failed prefix.  The source takes only the geometry: there is no source
feature code parameter and no filtering of the result list. -/
def findAdjacentHUC8sResult (resp : FetchOutcome HUC8FeatureCollection) :
    Except Thrown (List HUC8Feature) :=
  match queryWBD resp with
  | .ok data => .ok (data.features.getD [])
  | .error e => .error (.error ("Adjacent HUC8 lookup failed: " ++ messageOr "Unknown error" e))

/-- findAdjacentHUC8s from src/services/huc-service.ts: the issued query
parameters together with the returned or thrown value. -/
def findAdjacentHUC8s (geometry : Geometry) (resp : FetchOutcome HUC8FeatureCollection) :
    WBDPolygonQuery × Except Thrown (List HUC8Feature) :=
  (findAdjacentHUC8sParams geometry, findAdjacentHUC8sResult resp)

/-! ## Orchestrator state machine (src/app.ts) -/

/-- The map display owned by the MapController, as the orchestrator sees
it: the primary feature layer, the adjacent feature layers (whose click
handlers dispatch selectHUC8 on the listed features), and the search
markers. -/
structure MapDisplay where
  primary : Option HUC8Feature
  adjacent : List HUC8Feature
  markers : List (Rat × Rat)
deriving DecidableEq

/-- MapController.clearAll: remove the primary layer, the adjacent layers
and the markers. -/
def clearAll (_d : MapDisplay) : MapDisplay :=
  { primary := none, adjacent := [], markers := [] }

/-- MapController.addSearchMarker. -/
def addSearchMarker (d : MapDisplay) (lat lng : Rat) : MapDisplay :=
  { d with markers := d.markers ++ [(lat, lng)] }

/-- MapController.displayPrimaryHUC. -/
def displayPrimaryHUC (d : MapDisplay) (feature : HUC8Feature) : MapDisplay :=
  { d with primary := some feature }

/-- MapController.displayAdjacentHUCs: adds one layer per feature to the
adjacent layer group, each wired to the supplied click handler. -/
def displayAdjacentHUCs (d : MapDisplay) (features : List HUC8Feature) : MapDisplay :=
  { d with adjacent := d.adjacent ++ features }

/-- The info panel fields written by updateInfoPanel.  hucArea is none
when rendered as the dashes placeholder. -/
structure InfoPanel where
  hucCode : String
  hucName : String
  hucStates : String
  hucArea : Option Rat
deriving DecidableEq

/-- HUC8App.updateInfoPanel: the area falls back to the placeholder when
areaacres is absent or zero (JavaScript falsiness). -/
def updateInfoPanel (props : HUC8Properties) : InfoPanel :=
  { hucCode := props.huc8
    hucName := props.name
    hucStates := props.states
    hucArea :=
      match props.areaacres with
      | some a => if a = 0 then none else some a
      | none => none }

/-- HUC8App.updateAdjacentList: the rendered rows, one (code, name) pair
per adjacent feature; the empty list is rendered as the no-adjacent
message. -/
def updateAdjacentList (features : List HUC8Feature) : List (String × String) :=
  features.map (fun f => (f.properties.huc8, f.properties.name))

/-- The UI-visible state owned by HUC8App. -/
structure AppState where
  inputDisabled : Bool
  buttonDisabled : Bool
  buttonTextHidden : Bool
  spinnerVisible : Bool
  errorVisible : Bool
  errorText : String
  resultsPanelVisible : Bool
  infoPanel : InfoPanel
  adjacentListItems : List (String × String)
  display : MapDisplay
  currentHUC8 : Option HUC8Feature
deriving DecidableEq

/-- HUC8App.showLoading. -/
def showLoading (st : AppState) : AppState :=
  { st with inputDisabled := true, buttonDisabled := true,
            buttonTextHidden := true, spinnerVisible := true }

/-- HUC8App.hideLoading. -/
def hideLoading (st : AppState) : AppState :=
  { st with inputDisabled := false, buttonDisabled := false,
            buttonTextHidden := false, spinnerVisible := false }

/-- HUC8App.showError. -/
def showError (st : AppState) (message : String) : AppState :=
  { st with errorText := message, errorVisible := true }

/-- HUC8App.hideError. -/
def hideError (st : AppState) : AppState :=
  { st with errorVisible := false }

/-- HUC8App.displayResults: clear the map, add the search marker, draw
the primary and adjacent features (wiring neighbor clicks to selectHUC8),
refresh the info panel and the adjacent list, show the results panel and
record the current feature. -/
def displayResults (st : AppState) (location : GeocodingResult Rat)
    (huc8Feature : HUC8Feature) (adjacentFeatures : List HUC8Feature) : AppState :=
  let d := clearAll st.display
  let d := addSearchMarker d location.lat location.lng
  let d := displayPrimaryHUC d huc8Feature
  let d := displayAdjacentHUCs d adjacentFeatures
  { st with display := d
            infoPanel := updateInfoPanel huc8Feature.properties
            adjacentListItems := updateAdjacentList adjacentFeatures
            resultsPanelVisible := true
            currentHUC8 := some huc8Feature }

/-- A service call issued by the orchestrator, with the argument it was
invoked with. -/
inductive ServiceCall where
  | geocodeCall (query : String)
  | boundaryCall (lat lng : Rat)
  | adjacencyCall (geometry : Geometry)
deriving DecidableEq

/-- The outcomes the three pipeline services would produce if invoked,
abstracting the network environment of one handleSearch run. -/
structure PipelineOracle where
  geocode : Except Thrown (GeocodingResult Rat)
  findHUC8 : Except Thrown HUC8Feature
  findAdjacent : Except Thrown (List HUC8Feature)

/-- The catch block of handleSearch: the message of a thrown Error is
surfaced verbatim, any other thrown value falls back to the generic
message. -/
def searchCatchMessage : Thrown → String :=
  messageOr "An unexpected error occurred."

/-- The catch block of selectHUC8. -/
def selectCatchMessage : Thrown → String :=
  messageOr "Failed to load watershed."

/-- HUC8App.handleSearch: trim the input and reject a falsy (empty)
query; otherwise show the loading state, clear any previous error, run
geocodeAddress, findHUC8ByPoint and findAdjacentHUC8s strictly in
sequence (each fed from the previous result), display the results, show
the catch message on any failure, and hide the loading state in the
finally block on every path.  Returns the settled state and the ordered
list of service calls issued. -/
def handleSearch (inputValue : String) (o : PipelineOracle) (st : AppState) :
    AppState × List ServiceCall :=
  let query := jsTrim inputValue
  if query = "" then
    (showError st "Please enter an address or zip code.", [])
  else
    let st1 := hideError (showLoading st)
    match o.geocode with
    | .error e =>
      (hideLoading (showError st1 (searchCatchMessage e)), [.geocodeCall query])
    | .ok location =>
      match o.findHUC8 with
      | .error e =>
        (hideLoading (showError st1 (searchCatchMessage e)),
         [.geocodeCall query, .boundaryCall location.lat location.lng])
      | .ok huc8Feature =>
        match o.findAdjacent with
        | .error e =>
          (hideLoading (showError st1 (searchCatchMessage e)),
           [.geocodeCall query, .boundaryCall location.lat location.lng,
            .adjacencyCall huc8Feature.geometry])
        | .ok adjacentFeatures =>
          (hideLoading (displayResults st1 location huc8Feature adjacentFeatures),
           [.geocodeCall query, .boundaryCall location.lat location.lng,
            .adjacencyCall huc8Feature.geometry])

/-- The first failing step of a pipeline run, if any. -/
def pipelineFirstError (o : PipelineOracle) : Option Thrown :=
  match o.geocode with
  | .error e => some e
  | .ok _ =>
    match o.findHUC8 with
    | .error e => some e
    | .ok _ =>
      match o.findAdjacent with
      | .error e => some e
      | .ok _ => none

/-- HUC8App.selectHUC8: show the loading state, run only
findAdjacentHUC8s on the clicked feature's geometry; on success clear
and redraw the map with the clicked feature as primary and the new
neighbor set (re-wiring neighbor clicks), refresh the panel and record
the new current feature; on failure show the catch message and leave the
display untouched; hide the loading state in the finally block on every
path. -/
def selectHUC8 (feature : HUC8Feature)
    (adjacentOutcome : Except Thrown (List HUC8Feature)) (st : AppState) :
    AppState × List ServiceCall :=
  let st1 := showLoading st
  match adjacentOutcome with
  | .error e =>
    (hideLoading (showError st1 (selectCatchMessage e)),
     [.adjacencyCall feature.geometry])
  | .ok adjacentFeatures =>
    let d := clearAll st1.display
    let d := displayPrimaryHUC d feature
    let d := displayAdjacentHUCs d adjacentFeatures
    let st2 := { st1 with display := d
                          infoPanel := updateInfoPanel feature.properties
                          adjacentListItems := updateAdjacentList adjacentFeatures
                          currentHUC8 := some feature }
    (hideLoading st2, [.adjacencyCall feature.geometry])

/-! ## Concrete fixtures (from tests/huc-service.test.ts) -/

/-- The Middle Potomac test feature. -/
def middlePotomacFeature : HUC8Feature :=
  { properties :=
      { huc8 := "02070010"
        name := "Middle Potomac-Anacostia-Occoquan"
        states := "DC,MD,VA"
        areaacres := some (570189.5 : Rat)
        areasqkm := some (2307.5 : Rat) }
    geometry := Geometry.polygon
      [[((-77.5 : Rat), (38.5 : Rat)), ((-77 : Rat), (38.5 : Rat)),
        ((-77 : Rat), (39 : Rat)), ((-77.5 : Rat), (39 : Rat)),
        ((-77.5 : Rat), (38.5 : Rat))]] }

/-- The Upper Potomac test feature. -/
def upperPotomacFeature : HUC8Feature :=
  { properties :=
      { huc8 := "02070008"
        name := "Upper Potomac"
        states := "MD,VA,WV"
        areaacres := none
        areasqkm := none }
    geometry := Geometry.polygon
      [[((-78 : Rat), (39 : Rat)), ((-77.5 : Rat), (39 : Rat)),
        ((-77.5 : Rat), (39.5 : Rat)), ((-78 : Rat), (39.5 : Rat)),
        ((-78 : Rat), (39 : Rat))]] }

/-- A neutral starting UI state used by the witnesses. -/
def sampleState : AppState :=
  { inputDisabled := false, buttonDisabled := false, buttonTextHidden := false,
    spinnerVisible := false, errorVisible := false, errorText := "",
    resultsPanelVisible := false,
    infoPanel := { hucCode := "", hucName := "", hucStates := "", hucArea := none },
    adjacentListItems := [], display := { primary := none, adjacent := [], markers := [] },
    currentHUC8 := none }

/-- An oracle whose geocoding step fails, used by the witnesses. -/
def sampleFailingOracle : PipelineOracle :=
  { geocode := .error (.error "boom")
    findHUC8 := .ok middlePotomacFeature
    findAdjacent := .ok [] }

/-! ## Helper lemmas -/

lemma listStartsWith_refl (l : List Char) : listStartsWith l l = true := by
  induction l with
  | nil => rfl
  | cons a l ih => simp [listStartsWith, ih]

lemma listHasSub_append (a b : List Char) : listHasSub b (a ++ b) = true := by
  induction a with
  | nil =>
    cases b with
    | nil => rfl
    | cons c t => simp [listHasSub, listStartsWith_refl]
  | cons c a ih => simp [listHasSub, ih]

lemma jsIncludes_append_right (a b : String) : jsIncludes (a ++ b) b = true := by
  simpa [jsIncludes, String.data_append] using listHasSub_append a.data b.data

lemma jsIncludes_append_append (a b c : String) :
    jsIncludes (a ++ (b ++ c)) c = true := by
  have h := listHasSub_append (a.data ++ b.data) c.data
  simpa [jsIncludes, String.data_append, List.append_assoc] using h

lemma listStartsWith_subset {p l : List Char} (h : listStartsWith p l = true) :
    ∀ c ∈ p, c ∈ l := by
  induction p generalizing l with
  | nil => simp
  | cons a p ih =>
    cases l with
    | nil => simp [listStartsWith] at h
    | cons b l =>
      simp only [listStartsWith, Bool.and_eq_true, beq_iff_eq] at h
      intro c hc
      rcases List.mem_cons.mp hc with rfl | hc
      · simp [h.1]
      · exact List.mem_cons_of_mem _ (ih h.2 c hc)

lemma listHasSub_subset {p l : List Char} (h : listHasSub p l = true) :
    ∀ c ∈ p, c ∈ l := by
  induction l with
  | nil =>
    cases p with
    | nil => simp
    | cons a p => simp [listHasSub, List.isEmpty] at h
  | cons b l ih =>
    simp only [listHasSub, Bool.or_eq_true] at h
    rcases h with h | h
    · exact listStartsWith_subset h
    · exact fun c hc => List.mem_cons_of_mem _ (ih h c hc)

lemma jsIncludes_eq_false {s sub : String} {c : Char}
    (hc : c ∈ sub.data) (hs : c ∉ s.data) : jsIncludes s sub = false := by
  cases h : jsIncludes s sub with
  | false => rfl
  | true => exact absurd (listHasSub_subset h c hc) hs

lemma digitChar_isDigit {n : Nat} (h : n < 10) : (Nat.digitChar n).isDigit = true := by
  interval_cases n <;> decide

lemma toDigitsCore_isDigit (fuel : Nat) :
    ∀ (n : Nat) (acc : List Char), (∀ c ∈ acc, c.isDigit = true) →
      ∀ c ∈ Nat.toDigitsCore 10 fuel n acc, c.isDigit = true := by
  induction fuel with
  | zero => intro n acc hacc; simpa [Nat.toDigitsCore] using hacc
  | succ fuel ih =>
    intro n acc hacc
    simp only [Nat.toDigitsCore]
    split
    · intro c hc
      rcases List.mem_cons.mp hc with rfl | hc
      · exact digitChar_isDigit (Nat.mod_lt _ (by norm_num))
      · exact hacc c hc
    · refine ih _ _ ?_
      intro c hc
      rcases List.mem_cons.mp hc with rfl | hc
      · exact digitChar_isDigit (Nat.mod_lt _ (by norm_num))
      · exact hacc c hc

lemma repr_isDigit (n : Nat) : ∀ c ∈ (Nat.repr n).data, c.isDigit = true := by
  have h := toDigitsCore_isDigit (n + 1) n [] (by simp)
  simpa [Nat.repr, Nat.toDigits, List.asString] using h

lemma apiRequestFailed_lacks_noHUC8 (status : Nat) :
    jsIncludes ("API request failed: " ++ Nat.repr status) "No HUC8" = false := by
  apply jsIncludes_eq_false (c := 'N')
  · decide
  · intro hmem
    rw [String.data_append] at hmem
    rcases List.mem_append.mp hmem with h | h
    · revert h; decide
    · have hd := repr_isDigit status 'N' h
      simp at hd

lemma waitForRateLimit_lower_bound {lastRequestTime : Int} (now : Int)
    (h : 0 < lastRequestTime) :
    lastRequestTime + MIN_REQUEST_INTERVAL ≤ (waitForRateLimit lastRequestTime now).1 := by
  unfold waitForRateLimit MIN_REQUEST_INTERVAL
  dsimp only
  split
  · omega
  · rename_i hcond
    rw [not_and_or] at hcond
    rcases hcond with hcond | hcond
    · exact absurd h (by simpa using hcond)
    · omega

/-! ## Claim theorems -/

/-- Claim C1 (code bug evaluation): findAdjacentHUC8s has no source
feature code parameter and performs no filtering; when the provider
response with N = 2 features contains the source feature itself, the
output is the full 2-element list, still containing the source code
02070010, instead of the 1-element filtered list required by the claim
and by the repository tests. -/
theorem adjacency_result_keeps_source :
    (findAdjacentHUC8sResult
        (FetchOutcome.response true 200
          { features := some [middlePotomacFeature, upperPotomacFeature] }) =
      Except.ok [middlePotomacFeature, upperPotomacFeature]) ∧
    middlePotomacFeature.properties.huc8 = "02070010" ∧
    ([middlePotomacFeature, upperPotomacFeature].map
        (fun f => f.properties.huc8)) = ["02070010", "02070008"] :=
  ⟨rfl, rfl, rfl⟩

/-- Claim C2 (code bug evaluation): every adjacency query built by
findAdjacentHUC8s carries the strict touches spatial relation, not the
intersects relation required by the claim and asserted by the repository
tests. -/
theorem adjacency_params_use_touches (geometry : Geometry) :
    (findAdjacentHUC8sParams geometry).spatialRel = "esriSpatialRelTouches" ∧
    ¬ (findAdjacentHUC8sParams geometry).spatialRel = "esriSpatialRelIntersects" := by
  refine ⟨rfl, fun h => ?_⟩
  have h2 : "esriSpatialRelTouches" = "esriSpatialRelIntersects" := h
  exact absurd h2 (by decide)

/-- Claim C3: for every pair of successive rate limiter acquisitions,
the second resumes no earlier than MIN_REQUEST_INTERVAL (1100 ms) after
the previously recorded timestamp and records its resumption time as the
new last timestamp; an acquisition from the initial state or right after
a reset resumes immediately, without waiting. -/
theorem rateLimiter_minimum_spacing (lastRequestTime now t : Int) :
    (0 < lastRequestTime →
      lastRequestTime + MIN_REQUEST_INTERVAL ≤ (waitForRateLimit lastRequestTime now).1) ∧
    (waitForRateLimit lastRequestTime now).2 = (waitForRateLimit lastRequestTime now).1 ∧
    (waitForRateLimit initialLastRequestTime t).1 = t ∧
    (waitForRateLimit resetRateLimiter t).1 = t := by
  refine ⟨fun h => waitForRateLimit_lower_bound now h, rfl, ?_, ?_⟩ <;>
    simp [waitForRateLimit, initialLastRequestTime, resetRateLimiter]

/-- Witness for rateLimiter_minimum_spacing at a concrete pair of
acquisition times 1100 ms apart would not wait; here the second call
arrives only 100 ms after the recorded timestamp 5000 and resumes at
6100 or later. -/
theorem rateLimiter_minimum_spacing_witness :
    (0 : Int) < 5000 ∧
      (5000 : Int) + MIN_REQUEST_INTERVAL ≤ (waitForRateLimit 5000 5100).1 :=
  ⟨by norm_num, (rateLimiter_minimum_spacing 5000 5100 0).1 (by norm_num)⟩

/-- Claim C4: for every pipeline run started by a non-empty trimmed
query, the loading indicator fields settle cleared whatever the outcome,
and on failure of any step the surfaced message is the failing step's
message verbatim for Error values, with the generic fallback for
non-Error thrown values. -/
theorem search_clears_loading_and_surfaces_message (inputValue : String)
    (o : PipelineOracle) (st : AppState) (hq : ¬ jsTrim inputValue = "") :
    ((handleSearch inputValue o st).1.spinnerVisible = false) ∧
    ((handleSearch inputValue o st).1.inputDisabled = false) ∧
    ((handleSearch inputValue o st).1.buttonDisabled = false) ∧
    ((handleSearch inputValue o st).1.buttonTextHidden = false) ∧
    (∀ e, pipelineFirstError o = some e →
      (handleSearch inputValue o st).1.errorVisible = true ∧
      (handleSearch inputValue o st).1.errorText = searchCatchMessage e) ∧
    (∀ m, searchCatchMessage (Thrown.error m) = m) ∧
    searchCatchMessage Thrown.nonError = "An unexpected error occurred." := by
  obtain ⟨g, b, a⟩ := o
  simp only [handleSearch, if_neg hq, pipelineFirstError]
  cases g <;> cases b <;> cases a <;>
    simp [hideLoading, showError, hideError, showLoading, displayResults,
          searchCatchMessage, messageOr]

/-- Witness for search_clears_loading_and_surfaces_message: a run whose
geocoding step throws an Error with message boom settles with the
spinner hidden and exactly that message surfaced. -/
theorem search_clears_loading_witness :
    ¬ jsTrim " dc " = "" ∧
      (handleSearch " dc " sampleFailingOracle sampleState).1.spinnerVisible = false ∧
      (handleSearch " dc " sampleFailingOracle sampleState).1.errorText = "boom" := by
  have h := search_clears_loading_and_surfaces_message " dc "
    sampleFailingOracle sampleState (by decide)
  exact ⟨by decide, h.1, (h.2.2.2.2.1 (Thrown.error "boom") rfl).2⟩

/-- Claim C5: a query that trims to the empty string never starts the
pipeline: no service call is issued and the validation message, which
contains the words enter an address, is shown instead. -/
theorem empty_query_skips_pipeline (inputValue : String) (o : PipelineOracle)
    (st : AppState) (hq : jsTrim inputValue = "") :
    ((handleSearch inputValue o st).2 = []) ∧
    ((handleSearch inputValue o st).1 =
      showError st "Please enter an address or zip code.") ∧
    ((handleSearch inputValue o st).1.errorVisible = true) ∧
    ((handleSearch inputValue o st).1.errorText =
      "Please enter an address or zip code.") ∧
    jsIncludes "Please enter an address or zip code." "enter an address" = true := by
  have h1 : handleSearch inputValue o st =
      (showError st "Please enter an address or zip code.", []) := by
    simp [handleSearch, hq]
  rw [h1]
  exact ⟨rfl, rfl, rfl, rfl, by decide⟩

/-- Witness for empty_query_skips_pipeline on a whitespace-only query. -/
theorem empty_query_skips_pipeline_witness :
    jsTrim "   " = "" ∧
      (handleSearch "   " sampleFailingOracle sampleState).2 = [] ∧
      (handleSearch "   " sampleFailingOracle sampleState).1.errorText =
        "Please enter an address or zip code." :=
  ⟨by decide,
   (empty_query_skips_pipeline "   " sampleFailingOracle sampleState (by decide)).1,
   (empty_query_skips_pipeline "   " sampleFailingOracle sampleState (by decide)).2.2.2.1⟩

/-- Claim C6: geocodeAddress fails with a message carrying the numeric
status on a non-ok HTTP response, fails with the Address not found
message when the provider returns zero results, and otherwise returns
the first result with latitude and longitude run through parseFloat. -/
theorem geocode_result_classification {α : Type} (parseFloat : String → α)
    (query : String) (lastRequestTime now : Int) (status : Nat)
    (data rest : List NominatimResult) (r : NominatimResult) :
    ((geocodeAddress parseFloat query lastRequestTime now
        (FetchOutcome.response false status data)).result =
      Except.error (Thrown.error ("Geocoding failed: " ++ Nat.repr status))) ∧
    jsIncludes ("Geocoding failed: " ++ Nat.repr status) (Nat.repr status) = true ∧
    ((geocodeAddress parseFloat query lastRequestTime now
        (FetchOutcome.response true status [])).result =
      Except.error (Thrown.error "Address not found. Please try a different search.")) ∧
    jsIncludes "Address not found. Please try a different search." "Address not found" = true ∧
    ((geocodeAddress parseFloat query lastRequestTime now
        (FetchOutcome.response true status (r :: rest))).result =
      Except.ok { lat := parseFloat r.lat, lng := parseFloat r.lon,
                  displayName := r.display_name }) :=
  ⟨rfl, jsIncludes_append_right _ _, rfl, by decide, rfl⟩

/-- Claim C7 counterexample: a network failure whose message happens to
contain the substring No HUC8 is rethrown as is, not wrapped into the
distinct HUC8 lookup failed kind the claim requires for every provider
or network failure. -/
theorem boundary_failure_not_wrapped_example :
    (findHUC8ByPointResult
        (FetchOutcome.networkError
          (Thrown.error "fetch aborted: No HUC8 backend reachable")) =
      Except.error (Thrown.error "fetch aborted: No HUC8 backend reachable")) ∧
    jsIncludes "fetch aborted: No HUC8 backend reachable" "HUC8 lookup failed" = false := by
  exact ⟨rfl, by decide⟩

/-- Claim C7 (amended): zero returned features fail with the
noHUC8FoundMessage, which names No HUC8 found and the United States and
is not a HUC8 lookup failed message; any other provider or network
failure whose message does not contain the substring No HUC8 is wrapped
into a distinct HUC8 lookup failed error, as is any non-Error thrown
value; a non-ok HTTP response is wrapped and its message contains the
numeric status. -/
theorem boundary_failure_classification (status : Nat)
    (fc : HUC8FeatureCollection) (m : String) :
    (findHUC8ByPointResult (FetchOutcome.response true status { features := none }) =
      Except.error (Thrown.error noHUC8FoundMessage)) ∧
    (findHUC8ByPointResult (FetchOutcome.response true status { features := some [] }) =
      Except.error (Thrown.error noHUC8FoundMessage)) ∧
    jsIncludes noHUC8FoundMessage "No HUC8 found" = true ∧
    jsIncludes noHUC8FoundMessage "United States" = true ∧
    jsIncludes noHUC8FoundMessage "HUC8 lookup failed" = false ∧
    (jsIncludes m "No HUC8" = false →
      findHUC8ByPointResult (FetchOutcome.networkError (Thrown.error m)) =
        Except.error (Thrown.error ("HUC8 lookup failed: " ++ m))) ∧
    (findHUC8ByPointResult (FetchOutcome.networkError Thrown.nonError) =
      Except.error (Thrown.error ("HUC8 lookup failed: " ++ "Unknown error"))) ∧
    (findHUC8ByPointResult (FetchOutcome.response false status fc) =
      Except.error (Thrown.error
        ("HUC8 lookup failed: " ++ ("API request failed: " ++ Nat.repr status)))) ∧
    jsIncludes ("HUC8 lookup failed: " ++ ("API request failed: " ++ Nat.repr status))
      (Nat.repr status) = true := by
  refine ⟨rfl, rfl, by decide, by decide, by decide, ?_, rfl, ?_,
    jsIncludes_append_append _ _ _⟩
  · intro h
    simp [findHUC8ByPointResult, queryWBD, findHUC8Catch, h]
  · simp [findHUC8ByPointResult, queryWBD, findHUC8Catch,
      apiRequestFailed_lacks_noHUC8 status]

/-- Witness for boundary_failure_classification: a plain network error
is wrapped with the HUC8 lookup failed prefix. -/
theorem boundary_failure_classification_witness :
    jsIncludes "connection reset by peer" "No HUC8" = false ∧
      findHUC8ByPointResult
          (FetchOutcome.networkError (Thrown.error "connection reset by peer")) =
        Except.error (Thrown.error ("HUC8 lookup failed: " ++ "connection reset by peer")) :=
  ⟨by decide,
   (boundary_failure_classification 503 { features := none }
      "connection reset by peer").2.2.2.2.2.1 (by decide)⟩

/-- Claim C8: selectHUC8 issues exactly one adjacency call on the clicked
feature's geometry and nothing else; on success the clicked feature
becomes the new primary with the new neighbor set wired in and recorded
as current; on failure the catch message is reported while the previous
display, panel and current selection stay untouched; the loading state is
cleared on both paths. -/
theorem select_runs_only_adjacency (feature : HUC8Feature) (st : AppState)
    (adjacentFeatures : List HUC8Feature) (e : Thrown) :
    ((selectHUC8 feature (Except.ok adjacentFeatures) st).2 =
      [ServiceCall.adjacencyCall feature.geometry]) ∧
    ((selectHUC8 feature (Except.error e) st).2 =
      [ServiceCall.adjacencyCall feature.geometry]) ∧
    ((selectHUC8 feature (Except.ok adjacentFeatures) st).1.currentHUC8 = some feature) ∧
    ((selectHUC8 feature (Except.ok adjacentFeatures) st).1.display.primary = some feature) ∧
    ((selectHUC8 feature (Except.ok adjacentFeatures) st).1.display.adjacent =
      adjacentFeatures) ∧
    ((selectHUC8 feature (Except.ok adjacentFeatures) st).1.infoPanel =
      updateInfoPanel feature.properties) ∧
    ((selectHUC8 feature (Except.ok adjacentFeatures) st).1.adjacentListItems =
      updateAdjacentList adjacentFeatures) ∧
    ((selectHUC8 feature (Except.error e) st).1.display = st.display) ∧
    ((selectHUC8 feature (Except.error e) st).1.currentHUC8 = st.currentHUC8) ∧
    ((selectHUC8 feature (Except.error e) st).1.adjacentListItems = st.adjacentListItems) ∧
    ((selectHUC8 feature (Except.error e) st).1.infoPanel = st.infoPanel) ∧
    ((selectHUC8 feature (Except.error e) st).1.errorVisible = true) ∧
    ((selectHUC8 feature (Except.error e) st).1.errorText = selectCatchMessage e) ∧
    ((selectHUC8 feature (Except.ok adjacentFeatures) st).1.spinnerVisible = false) ∧
    ((selectHUC8 feature (Except.error e) st).1.spinnerVisible = false) :=
  ⟨rfl, rfl, rfl, rfl, rfl, rfl, rfl, rfl, rfl, rfl, rfl, rfl, rfl, rfl, rfl⟩

/-- Claim C9: every geocodeAddress run records the new shared
lastRequestTime (the rate limiter acquisition) before the HTTP request
event, for every fetch outcome including failing ones, so even a failed
geocode pushes the stored timestamp at least MIN_REQUEST_INTERVAL past
the previous one. -/
theorem geocode_records_timestamp_before_request {α : Type}
    (parseFloat : String → α) (query : String) (lastRequestTime now : Int)
    (resp : FetchOutcome (List NominatimResult)) :
    ((geocodeAddress parseFloat query lastRequestTime now resp).events =
      [GeocodeEvent.recordLastRequestTime (waitForRateLimit lastRequestTime now).2,
       GeocodeEvent.httpGet (geocodeRequestParams query)]) ∧
    ((geocodeAddress parseFloat query lastRequestTime now resp).lastRequestTime =
      (waitForRateLimit lastRequestTime now).2) ∧
    (0 < lastRequestTime →
      lastRequestTime + MIN_REQUEST_INTERVAL ≤
        (geocodeAddress parseFloat query lastRequestTime now resp).lastRequestTime) := by
  cases resp with
  | networkError e =>
    exact ⟨rfl, rfl, fun h => waitForRateLimit_lower_bound now h⟩
  | response ok status data =>
    cases ok <;> cases data <;>
      exact ⟨rfl, rfl, fun h => waitForRateLimit_lower_bound now h⟩

/-- Witness for geocode_records_timestamp_before_request: a run whose
fetch rejects with a non-Error value still advances the stored timestamp
by the full interval. -/
theorem geocode_records_timestamp_witness :
    (0 : Int) < 5000 ∧
      (5000 : Int) + MIN_REQUEST_INTERVAL ≤
        (geocodeAddress id "a" 5000 5100
          (FetchOutcome.networkError Thrown.nonError)).lastRequestTime :=
  ⟨by norm_num,
   (geocode_records_timestamp_before_request id "a" 5000 5100
      (FetchOutcome.networkError Thrown.nonError)).2.2 (by norm_num)⟩

/-- Claim C10: any error thrown during the boundary query whose message
contains the substring No HUC8 is rethrown unwrapped by findHUC8ByPoint,
so such a provider or network failure is not wrapped as a lookup
failure. -/
theorem noHUC8_substring_rethrown_unwrapped (m : String)
    (h : jsIncludes m "No HUC8" = true) :
    findHUC8ByPointResult (FetchOutcome.networkError (Thrown.error m)) =
      Except.error (Thrown.error m) := by
  simp [findHUC8ByPointResult, queryWBD, findHUC8Catch, h]

/-- Witness for noHUC8_substring_rethrown_unwrapped on a concrete
network error message containing No HUC8. -/
theorem noHUC8_substring_rethrown_unwrapped_witness :
    jsIncludes "network down: No HUC8 index available" "No HUC8" = true ∧
      findHUC8ByPointResult
          (FetchOutcome.networkError
            (Thrown.error "network down: No HUC8 index available")) =
        Except.error (Thrown.error "network down: No HUC8 index available") :=
  ⟨by decide, noHUC8_substring_rethrown_unwrapped _ (by decide)⟩

end HUC8Lookup
